/-
  Verification of the natural-language specification of `http-server-rs`
  (a minimal HTTP/1.1 server, `src/main.rs`) against a shallow embedding
  of its code in Lean 4.

  Modelling conventions:
  - The `HashMap<String, String>` of `parse_request` is embedded as a
    function `String → Option String`; `HashMap::insert` is `mapInsert`
    (later inserts overwrite earlier ones, exactly as in `HashMap`).
  - A Rust panic (out-of-bounds index, `unwrap` on `None`) is embedded as
    `Option.none` in the result of the embedded function.
  - Rust `str::split(sep)` for the non-empty separators used by the code
    (`"\r\n"`, `" "`, `": "`, `", "`) is embedded as `splitSep`: the
    parts between non-overlapping occurrences of the separator, scanned
    left to right, and `str::starts_with` as `starts_with`.
  - Rust byte strings (`str::as_bytes`, `str::len`) are embedded through
    `strBytes`, the UTF-8 encoding of the string as a `List Nat`.
  - The filesystem touched by `parse_files_endpoint` is embedded as a map
    `String → Option String` from file path to readable text contents;
    `fs::read_to_string` failures of any cause are the `none` case, and
    `File::create` + `write_all` is `mapInsert` on that map.
-/
import Mathlib

set_option maxRecDepth 4000

/-! ## UTF-8 bytes of a string (Rust `str::as_bytes` / `str::len`) -/

/-- UTF-8 encoding of a single Unicode code point, as byte values. -/
def utf8Bytes (c : Nat) : List Nat :=
  if c < 128 then [c]
  else if c < 2048 then [192 + c / 64, 128 + c % 64]
  else if c < 65536 then [224 + c / 4096, 128 + (c / 64) % 64, 128 + c % 64]
  else [240 + c / 262144, 128 + (c / 4096) % 64, 128 + (c / 64) % 64, 128 + c % 64]

/-- The UTF-8 byte sequence of a string: the embedding of Rust
    `str::as_bytes`; its length is Rust `str::len`. -/
def strBytes (s : String) : List Nat :=
  s.data.flatMap (fun c => utf8Bytes c.toNat)

/-! ## Rust string splitting and matching primitives -/

/-- Remove the character sequence `pre` from the front of `s`, when it
    is literally there. -/
def dropPrefixList : List Char → List Char → Option (List Char)
  | [], s => some s
  | _ :: _, [] => none
  | p :: ps, c :: cs => if p = c then dropPrefixList ps cs else none

/-- Scan `s` left to right; each non-overlapping occurrence of `sep`
    ends the current part. The fuel only bounds the recursion: every
    round with a non-empty `sep` consumes at least one character, so
    fuel `s.length + 1` always suffices. -/
def splitSepAux : Nat → List Char → List Char → List Char → List (List Char)
  | 0, _, acc, s => [acc.reverse ++ s]
  | fuel + 1, sep, acc, s =>
    match dropPrefixList sep s with
    | some s2 => acc.reverse :: splitSepAux fuel sep [] s2
    | none =>
      match s with
      | [] => [acc.reverse]
      | c :: cs => splitSepAux fuel sep (c :: acc) cs

/-- Rust `str::split` with a non-empty string separator: the parts of
    `s` between non-overlapping occurrences of `sep`, scanned left to
    right; always at least one (possibly empty) part. -/
def splitSep (sep s : String) : List String :=
  (splitSepAux (s.data.length + 1) sep.data [] s.data).map fun l => ⟨l⟩

/-- Rust `str::starts_with` with a string pattern. -/
def starts_with (s pre : String) : Bool :=
  (dropPrefixList pre.data s.data).isSome

/-! ## The string-keyed mapping of `parse_request` -/

/-- The empty `HashMap<String, String>` (`HashMap::new`). -/
def emptyMap : String → Option String := fun _ => none

/-- `HashMap::insert`: a later insert of the same key overwrites the
    earlier value. -/
def mapInsert (m : String → Option String) (k v : String) :
    String → Option String :=
  fun q => if q = k then some v else m q

/-! ## `parse_request` (src/main.rs lines 45-72) -/

/-- One iteration of the header/body loop of `parse_request`
    (src/main.rs lines 59-68): split the line on the literal `": "`;
    exactly two parts insert a header pair, exactly one part is stored
    under `"Body"`, any other number of parts leaves the map unchanged. -/
def processLine (details : String → Option String) (data : String) :
    String → Option String :=
  match splitSep ": " data with
  | [k, v] => mapInsert details k v
  | [b] => mapInsert details "Body" b
  | _ => details

/-- `parse_request` (src/main.rs lines 45-72). The raw request text is
    split on `"\r\n"`; the first line is split on `" "` and indexed at
    0, 1, 2 for `Type`, `Path`, `Version` (an out-of-bounds index is a
    panic, embedded as `none`); every further line goes through
    `processLine`. -/
def parse_request (request : String) : Option (String → Option String) :=
  match splitSep "\r\n" request with
  | [] => some emptyMap
  | first :: rest =>
    match (splitSep " " first)[0]?, (splitSep " " first)[1]?,
        (splitSep " " first)[2]? with
    | some t, some p, some v =>
      some (rest.foldl processLine
        (mapInsert (mapInsert (mapInsert emptyMap "Type" t) "Path" p)
          "Version" v))
    | _, _, _ => none

/-- Lookup of one key in the result of `parse_request`; `none` both when
    parsing panics and when the key is absent. -/
def parseGet (request k : String) : Option String :=
  match parse_request request with
  | some m => m k
  | none => none

/-! ## `contains_gzip_encoding` (src/main.rs lines 173-181) -/

/-- `contains_gzip_encoding`: iterate over the candidate encodings and
    return true on the first one equal to `SUPPORTED_ENCODING` =
    `"gzip"`. The `Split` iterator argument is embedded as the list of
    parts. -/
def contains_gzip_encoding : List String → Bool
  | [] => false
  | e :: rest => if e = "gzip" then true else contains_gzip_encoding rest

/-! ## `str::trim_start_matches` -/

/-- Repeatedly remove leading occurrences of `pre`. The fuel argument
    only bounds the recursion: one round with a non-empty `pre` consumes
    at least one character, so fuel `s.length` always suffices. -/
def trimStartAux : Nat → List Char → List Char → List Char
  | 0, _, s => s
  | fuel + 1, pre, s =>
    match dropPrefixList pre s with
    | some s2 => if pre = [] then s else trimStartAux fuel pre s2
    | none => s

/-- Rust `str::trim_start_matches` with a string pattern: all leading
    occurrences of the pattern are removed, repeatedly. -/
def trim_start_matches (pre s : String) : String :=
  ⟨trimStartAux s.data.length pre.data s.data⟩


/-! ## Gzip (flate2 `GzEncoder`)

Modelled from the spec: the repository compresses the echo text with the
external `flate2` crate (`GzEncoder::new(Vec::new(), Compression::default())`
followed by `write_all` and `finish`), whose DEFLATE implementation is not
part of this repository. Following the spec — "compress the echo text with
the gzip format" and "gzip-compress then gzip-decompress of any echoed
string returns the original string unchanged" — the encoder is modelled as
a gzip member (RFC 1952 header, DEFLATE stored blocks, CRC32 and ISIZE
trailer) over the byte sequence, together with the matching decoder. -/

/-- Two little-endian bytes of a 16-bit value. -/
def le16 (n : Nat) : List Nat := [n % 256, (n / 256) % 256]

/-- Four little-endian bytes of a 32-bit value. -/
def le32 (n : Nat) : List Nat :=
  [n % 256, (n / 256) % 256, (n / 65536) % 256, (n / 16777216) % 256]

/-- One bit step of the reflected CRC-32 (polynomial 0xEDB88320). -/
def crcStepBit (c : Nat) : Nat :=
  if c % 2 = 1 then Nat.xor (c / 2) 3988292384 else c / 2

/-- One byte step of CRC-32: fold in the byte, then eight bit steps. -/
def crcStepByte (c b : Nat) : Nat :=
  crcStepBit (crcStepBit (crcStepBit (crcStepBit
    (crcStepBit (crcStepBit (crcStepBit (crcStepBit (Nat.xor c b))))))))

/-- CRC-32 of a byte sequence, as used by the gzip trailer. -/
def crc32 (data : List Nat) : Nat :=
  Nat.xor (data.foldl crcStepByte 4294967295) 4294967295

/-- The DEFLATE stream of `data` as stored (uncompressed) blocks: each
    block is a header byte (BFINAL bit, BTYPE = 00), `LEN` and its
    complement `NLEN` as little-endian 16-bit values, then `LEN` raw
    bytes; at most 65535 bytes per block. The fuel argument only bounds
    the recursion: every non-final block consumes 65535 bytes, so fuel
    `data.length` always suffices to reach a final block. -/
def storedChunks : Nat → List Nat → List Nat
  | 0, data => 1 :: (le16 data.length ++ (le16 (65535 - data.length) ++ data))
  | fuel + 1, data =>
    if data.length ≤ 65535 then
      1 :: (le16 data.length ++ (le16 (65535 - data.length) ++ data))
    else
      0 :: (le16 65535 ++ (le16 0 ++
        (data.take 65535 ++ storedChunks fuel (data.drop 65535))))

/-- The DEFLATE stream of `data` as stored blocks. -/
def storedBlocks (data : List Nat) : List Nat :=
  storedChunks data.length data

/-- Parse a DEFLATE stream of stored blocks: returns the decompressed
    data and the bytes following the final block. -/
def parseBlocks : List Nat → Option (List Nat × List Nat)
  | hdr :: l0 :: l1 :: n0 :: n1 :: rest =>
    if (hdr / 2) % 4 = 0 ∧ n0 + 256 * n1 = 65535 - (l0 + 256 * l1) ∧
        l0 + 256 * l1 ≤ rest.length then
      if hdr % 2 = 1 then
        some (rest.take (l0 + 256 * l1), rest.drop (l0 + 256 * l1))
      else
        match parseBlocks (rest.drop (l0 + 256 * l1)) with
        | some (d2, rem) => some (rest.take (l0 + 256 * l1) ++ d2, rem)
        | none => none
    else none
  | _ => none
termination_by input => input.length
decreasing_by simp [List.length_drop]; omega

/-- Gzip-compress a byte sequence: RFC 1952 header (deflate method, no
    flags, no mtime, unknown OS), stored DEFLATE blocks, then the CRC-32
    and the length modulo 2^32, little-endian. -/
def gzipCompress (data : List Nat) : List Nat :=
  31 :: 139 :: 8 :: 0 :: 0 :: 0 :: 0 :: 0 :: 0 :: 255 ::
    (storedBlocks data ++ (le32 (crc32 data) ++ le32 (data.length % 4294967296)))

/-- Gzip-decompress: check the header, inflate the stored blocks, check
    the CRC-32 / ISIZE trailer; `none` on any mismatch. -/
def gzipDecompress (bytes : List Nat) : Option (List Nat) :=
  match bytes with
  | b0 :: b1 :: b2 :: b3 :: b4 :: b5 :: b6 :: b7 :: b8 :: b9 :: rest =>
    if b0 = 31 ∧ b1 = 139 ∧ b2 = 8 ∧ b3 = 0 ∧ b4 = 0 ∧ b5 = 0 ∧ b6 = 0 ∧
        b7 = 0 ∧ b8 = 0 ∧ b9 = 255 then
      match parseBlocks rest with
      | some (d, trailer) =>
        if trailer = le32 (crc32 d) ++ le32 (d.length % 4294967296) then some d
        else none
      | none => none
    else none
  | _ => none

/-! ## `parse_files_endpoint` (src/main.rs lines 139-171) -/

/-- `parse_files_endpoint`: dispatch on the request `Type`. `GET` reads
    the file (any read failure is the `none` case of the filesystem map
    and yields 404); `POST` creates/truncates the file with the parsed
    `Body` (a missing `Body` is an `unwrap` panic, embedded as `none`);
    any other method yields 404. Returns the response text and the
    filesystem after the call. -/
def parse_files_endpoint (request_details : String → Option String)
    (fs : String → Option String) (file_path : String) :
    Option (String × (String → Option String)) :=
  match request_details "Type" with
  | none => none
  | some request_type =>
    if request_type = "GET" then
      match fs file_path with
      | some file_contents =>
        some ("HTTP/1.1 200 OK\r\nContent-Type: application/octet-stream\r\nContent-Length: "
          ++ toString (strBytes file_contents).length ++ "\r\n\r\n" ++ file_contents, fs)
      | none => some ("HTTP/1.1 404 Not Found\r\n\r\n", fs)
    else if request_type = "POST" then
      match request_details "Body" with
      | some file_content =>
        some ("HTTP/1.1 201 Created\r\n\r\n", mapInsert fs file_path file_content)
      | none => none
    else
      some ("HTTP/1.1 404 Not Found\r\n\r\n", fs)

/-! ## `handle_connection` (src/main.rs lines 74-137) -/

/-- `Path::new(dir).join(file)`: an absolute `file` replaces `dir`. -/
def pathJoin (dir file : String) : String :=
  if starts_with file "/" then file else dir ++ "/" ++ file

/-- `handle_connection` (src/main.rs lines 74-137), after the socket
    read: the request text (the lossy UTF-8 decoding of the bytes read)
    is parsed, the handler is selected on `Path`, and the response bytes
    are built. `dir` is the base directory from `argv[2]` and `fs` the
    filesystem map. Returns the response bytes to be written to the
    socket together with the filesystem after the call; `none` embeds a
    panic. -/
def handle_connection (request dir : String) (fs : String → Option String) :
    Option (List Nat × (String → Option String)) :=
  match parse_request request with
  | none => none
  | some request_details =>
    match request_details "Path" with
    | none => none
    | some path =>
      if path = "/" then
        some (strBytes "HTTP/1.1 200 OK\r\n\r\n", fs)
      else if starts_with path "/echo" = true then
        if contains_gzip_encoding
            (splitSep ", " ((request_details "Accept-Encoding").getD "invalid")) = true then
          some (strBytes ("HTTP/1.1 200 OK\r\nContent-Type: text/plain\r\n"
              ++ "Content-Encoding: gzip\r\n"
              ++ "Content-Length: "
              ++ toString (gzipCompress (strBytes (trim_start_matches "/echo/" path))).length
              ++ "\r\n\r\n")
            ++ gzipCompress (strBytes (trim_start_matches "/echo/" path)), fs)
        else
          some (strBytes ("HTTP/1.1 200 OK\r\nContent-Type: text/plain\r\n"
              ++ "Content-Length: "
              ++ toString (strBytes (trim_start_matches "/echo/" path)).length
              ++ "\r\n\r\n" ++ trim_start_matches "/echo/" path), fs)
      else if starts_with path "/files" = true then
        match parse_files_endpoint request_details fs
            (pathJoin dir (trim_start_matches "/files/" path)) with
        | some (resp, fs2) => some (strBytes resp, fs2)
        | none => none
      else if path = "/user-agent" then
        match request_details "User-Agent" with
        | some user_agent =>
          some (strBytes ("HTTP/1.1 200 OK\r\nContent-Type: text/plain\r\nContent-Length: "
            ++ toString (strBytes user_agent).length ++ "\r\n\r\n" ++ user_agent), fs)
        | none => some ([], fs)
      else
        some (strBytes "HTTP/1.1 404 Not Found\r\n\r\n", fs)

/-- The bytes written back on the connection, without the filesystem
    component. -/
def responseBytes (request dir : String) (fs : String → Option String) :
    Option (List Nat) :=
  (handle_connection request dir fs).map Prod.fst

/-! ## Gzip round-trip lemmas -/

/-- Parsing a single final stored block recovers its data and leaves the
    trailing bytes untouched. -/
theorem parseBlocks_final (d t : List Nat) (h : d.length ≤ 65535) :
    parseBlocks ((1 :: (le16 d.length ++ (le16 (65535 - d.length) ++ d))) ++ t)
      = some (d, t) := by
  have h1 : d.length % 256 + 256 * (d.length / 256 % 256) = d.length := by omega
  have h2 : (65535 - d.length) % 256 + 256 * ((65535 - d.length) / 256 % 256)
      = 65535 - d.length := by omega
  simp only [le16, List.cons_append, List.append_assoc, List.nil_append]
  rw [parseBlocks]
  simp only [h1, h2]
  simp [List.take_left, List.drop_left]

/-- Parsing the stored blocks produced by `storedChunks` recovers the
    data, for any adequate fuel. -/
theorem parseBlocks_storedChunks (k : Nat) :
    ∀ d t : List Nat, d.length ≤ 65535 + k →
      parseBlocks (storedChunks k d ++ t) = some (d, t) := by
  induction k with
  | zero =>
    intro d t h
    rw [storedChunks]
    exact parseBlocks_final d t (by omega)
  | succ k ih =>
    intro d t h
    by_cases hle : d.length ≤ 65535
    · rw [storedChunks, if_pos hle]
      exact parseBlocks_final d t hle
    · rw [storedChunks, if_neg hle]
      have htake : (d.take 65535).length = 65535 := by
        simp [List.length_take]; omega
      simp only [le16, List.cons_append, List.append_assoc, List.nil_append]
      rw [parseBlocks]
      have hrest : 65535 ≤ (d.take 65535 ++ (storedChunks k (d.drop 65535) ++ t)).length := by
        simp [htake]
      simp only [show (255 : Nat) + 256 * 255 = 65535 from rfl,
        show (0 : Nat) + 256 * 0 = 0 from rfl]
      rw [if_pos ⟨by norm_num, by norm_num, hrest⟩]
      rw [if_neg (by norm_num)]
      have e1 : ∀ B : List Nat, (d.take 65535 ++ B).take 65535 = d.take 65535 := by
        intro B
        have e := List.take_left (d.take 65535) B
        rwa [htake] at e
      have e2 : ∀ B : List Nat, (d.take 65535 ++ B).drop 65535 = B := by
        intro B
        have e := List.drop_left (d.take 65535) B
        rwa [htake] at e
      rw [e1, e2]
      rw [ih (d.drop 65535) t (by simp [List.length_drop]; omega)]
      simp [List.take_append_drop]

/-- Inflating the stored blocks of `storedBlocks` recovers the data and
    the trailing bytes. -/
theorem parseBlocks_storedBlocks (d t : List Nat) :
    parseBlocks (storedBlocks d ++ t) = some (d, t) :=
  parseBlocks_storedChunks d.length d t (by omega)

/-- Gzip round trip: decompressing a compressed byte sequence gives back
    exactly the original bytes. -/
theorem gzip_roundtrip (d : List Nat) :
    gzipDecompress (gzipCompress d) = some d := by
  rw [gzipCompress, gzipDecompress, parseBlocks_storedBlocks]
  simp

/-! ## Parser lemmas -/

/-- A key that no remaining line writes (no header pair with that key,
    and not `"Body"`) keeps its value across the header/body loop. -/
theorem foldl_processLine_preserve (lines : List String) :
    ∀ m : String → Option String, ∀ k : String, k ≠ "Body" →
      (∀ l ∈ lines, ∀ a b : String, splitSep ": " l = [a, b] → a ≠ k) →
      (lines.foldl processLine m) k = m k := by
  induction lines with
  | nil => intro m k _ _; rfl
  | cons l ls ih =>
    intro m k hk h
    rw [List.foldl_cons]
    rw [ih (processLine m l) k hk (fun l2 hl2 => h l2 (List.mem_cons_of_mem l hl2))]
    unfold processLine
    cases hs : splitSep ": " l with
    | nil => rfl
    | cons a rest =>
      cases rest with
      | nil => simp [mapInsert, hk]
      | cons b rest2 =>
        cases rest2 with
        | nil =>
          have ha : a ≠ k := h l (List.mem_cons_self l ls) a b hs
          simp [mapInsert, Ne.symm ha]
        | cons c rest3 => rfl

/-- The gzip scan succeeds exactly when some candidate equals "gzip". -/
theorem contains_gzip_iff_mem (l : List String) :
    contains_gzip_encoding l = true ↔ "gzip" ∈ l := by
  induction l with
  | nil => simp [contains_gzip_encoding]
  | cons e rest ih =>
    unfold contains_gzip_encoding
    by_cases he : e = "gzip"
    · simp [he]
    · simp [he, ih, Ne.symm he]

/-! ## Claim C1 -/

/-- C1 counterexample: the request `GET / HTTP/1.1` followed by a header
    line literally named `Path` has a first line with three
    space-separated tokens, yet `parse_request` does not map `Path` to
    the second token `/` — the later header line overwrote it. -/
theorem C1_counterexample :
    3 ≤ (splitSep " " ((splitSep "\r\n" "GET / HTTP/1.1\r\nPath: /evil").headD "")).length
    ∧ parseGet "GET / HTTP/1.1\r\nPath: /evil" "Path" ≠ some "/" := by
  decide

/-- C1 (amended): for every raw request whose first CRLF-separated line
    contains at least three single-space-separated tokens, and none of
    whose later lines splits on `": "` into a pair keyed `Type`, `Path`
    or `Version`, `parse_request` maps `Type`, `Path` and `Version` to
    the first three tokens of the first line, verbatim. -/
theorem C1_amended (req first : String) (rest : List String)
    (hsplit : splitSep "\r\n" req = first :: rest)
    (t p v : String)
    (h0 : (splitSep " " first)[0]? = some t)
    (h1 : (splitSep " " first)[1]? = some p)
    (h2 : (splitSep " " first)[2]? = some v)
    (hnc : ∀ l ∈ rest, ∀ a b : String, splitSep ": " l = [a, b] →
      a ≠ "Type" ∧ a ≠ "Path" ∧ a ≠ "Version") :
    ∃ m, parse_request req = some m ∧
      m "Type" = some t ∧ m "Path" = some p ∧ m "Version" = some v := by
  refine ⟨rest.foldl processLine
    (mapInsert (mapInsert (mapInsert emptyMap "Type" t) "Path" p) "Version" v),
    ?_, ?_, ?_, ?_⟩
  · simp only [parse_request, hsplit, h0, h1, h2]
  · rw [foldl_processLine_preserve rest _ "Type" (by decide)
      (fun l hl a b hs => (hnc l hl a b hs).1)]
    simp [mapInsert]
  · rw [foldl_processLine_preserve rest _ "Path" (by decide)
      (fun l hl a b hs => (hnc l hl a b hs).2.1)]
    simp [mapInsert]
  · rw [foldl_processLine_preserve rest _ "Version" (by decide)
      (fun l hl a b hs => (hnc l hl a b hs).2.2)]
    simp [mapInsert]

/-- C1 witness: a concrete three-token request with no later lines. -/
theorem C1_witness :
    ∃ m, parse_request "GET /index.html HTTP/1.1" = some m ∧
      m "Type" = some "GET" ∧ m "Path" = some "/index.html" ∧
      m "Version" = some "HTTP/1.1" :=
  C1_amended "GET /index.html HTTP/1.1" "GET /index.html HTTP/1.1" [] rfl
    "GET" "/index.html" "HTTP/1.1" rfl rfl rfl (by simp)

/-! ## Claim C2 -/

/-- C2: every line after the request line is split on the literal
    `": "`. Exactly two parts insert the pair (overwriting any earlier
    value of that key, the internal keys `Type`/`Path`/`Version`
    included); exactly one part (no `": "`, including the blank
    separator line and body lines) is stored under `Body`, overwriting
    any earlier `Body`, so only the last such line survives. The two
    closed conjuncts exhibit this on full requests: a header literally
    named `Path` replaces the request-line path, and of the blank line
    and the body line only the last survives as `Body`. -/
theorem C2_header_body_lines :
    (∀ (m : String → Option String) (l k v : String),
      splitSep ": " l = [k, v] → ∀ q, processLine m l q = if q = k then some v else m q)
    ∧ (∀ (m : String → Option String) (l b : String),
      splitSep ": " l = [b] → ∀ q, processLine m l q = if q = "Body" then some b else m q)
    ∧ (∀ (m : String → Option String) (ls : List String) (l k v : String),
      splitSep ": " l = [k, v] → ((ls ++ [l]).foldl processLine m) k = some v)
    ∧ (∀ (m : String → Option String) (ls : List String) (l b : String),
      splitSep ": " l = [b] → ((ls ++ [l]).foldl processLine m) "Body" = some b)
    ∧ parseGet "GET /x HTTP/1.1\r\nPath: /hdr" "Path" = some "/hdr"
    ∧ parseGet "GET /x HTTP/1.1\r\nHost: h\r\n\r\nhello" "Body" = some "hello" := by
  refine ⟨?_, ?_, ?_, ?_, by decide, by decide⟩
  · intro m l k v hs q
    simp [processLine, hs, mapInsert]
  · intro m l b hs q
    simp [processLine, hs, mapInsert]
  · intro m ls l k v hs
    rw [List.foldl_append]
    simp [processLine, hs, mapInsert]
  · intro m ls l b hs
    rw [List.foldl_append]
    simp [processLine, hs, mapInsert]

/-- C2 witness: the quantified conjuncts applied at a concrete header
    line, a concrete duplicate-key pair of lines, and a concrete
    body line. -/
theorem C2_witness :
    processLine emptyMap "Host: h" "Host"
      = (if ("Host" : String) = "Host" then some "h" else emptyMap "Host")
    ∧ ((["Accept: a"] ++ ["Accept: b"]).foldl processLine emptyMap) "Accept" = some "b"
    ∧ ((["", "x"] ++ ["hello"]).foldl processLine emptyMap) "Body" = some "hello"
    ∧ processLine emptyMap "" "Body"
      = (if ("Body" : String) = "Body" then some "" else emptyMap "Body") :=
  ⟨C2_header_body_lines.1 emptyMap "Host: h" "Host" "h" rfl "Host",
   C2_header_body_lines.2.2.1 emptyMap ["Accept: a"] "Accept: b" "Accept" "b" rfl,
   C2_header_body_lines.2.2.2.1 emptyMap ["", "x"] "hello" "hello" rfl,
   C2_header_body_lines.2.1 emptyMap "" "" rfl "Body"⟩

/-! ## Claim C9 -/

/-- C9: if the first CRLF-separated line of the raw request splits into
    fewer than three space-separated tokens (the empty request
    included), `parse_request` hits an out-of-bounds index — a panic,
    embedded as `none`; with at least three tokens that branch is
    unreachable and parsing returns a mapping. -/
theorem C9_short_request_line (req first : String) (rest : List String)
    (hsplit : splitSep "\r\n" req = first :: rest) :
    ((splitSep " " first).length < 3 → parse_request req = none)
    ∧ (3 ≤ (splitSep " " first).length → parse_request req ≠ none) := by
  constructor
  · intro hlen
    have h2 : (splitSep " " first)[2]? = none := by
      rw [List.getElem?_eq_none]
      omega
    cases h0 : (splitSep " " first)[0]? <;> cases h1 : (splitSep " " first)[1]? <;>
      simp [parse_request, hsplit, h0, h1, h2]
  · intro hlen
    have h0 : (splitSep " " first)[0]? = some ((splitSep " " first)[0]) :=
      List.getElem?_eq_getElem (by omega)
    have h1 : (splitSep " " first)[1]? = some ((splitSep " " first)[1]) :=
      List.getElem?_eq_getElem (by omega)
    have h2 : (splitSep " " first)[2]? = some ((splitSep " " first)[2]) :=
      List.getElem?_eq_getElem (by omega)
    simp [parse_request, hsplit, h0, h1, h2]

/-- C9 witness: the empty request panics (it has one token), and a
    well-formed three-token request line does not. -/
theorem C9_witness :
    parse_request "" = none ∧ parse_request "GET / HTTP/1.1" ≠ none :=
  ⟨(C9_short_request_line "" "" [] rfl).1 (by decide),
   (C9_short_request_line "GET / HTTP/1.1" "GET / HTTP/1.1" [] rfl).2 (by decide)⟩

/-! ## Claim C10 -/

/-- C10: a line after the request line that splits on `": "` into three
    or more parts is discarded entirely: the map is unchanged, so the
    line appears neither as a header pair nor as `Body`. The closed
    conjuncts exhibit this on a full request carrying `X: a: b`. -/
theorem C10_multi_colon_discarded :
    (∀ (m : String → Option String) (l : String),
      3 ≤ (splitSep ": " l).length → ∀ q, processLine m l q = m q)
    ∧ parseGet "GET / HTTP/1.1\r\nX: a: b" "X" = none
    ∧ parseGet "GET / HTTP/1.1\r\nX: a: b" "Body" = none
    ∧ parseGet "GET / HTTP/1.1\r\nX: a: b" "X: a" = none := by
  refine ⟨?_, by decide, by decide, by decide⟩
  intro m l hlen q
  unfold processLine
  cases hs : splitSep ": " l with
  | nil => rfl
  | cons a r =>
    cases r with
    | nil => rw [hs] at hlen; simp at hlen
    | cons b r2 =>
      cases r2 with
      | nil => rw [hs] at hlen; simp at hlen
      | cons c r3 => rfl

/-- C10 witness: the quantified conjunct applied at a concrete
    three-part line. -/
theorem C10_witness : processLine emptyMap "X: a: b" "X" = emptyMap "X" :=
  C10_multi_colon_discarded.1 emptyMap "X: a: b" (by decide) "X"

/-! ## Claim C3 -/

/-- C3: the content negotiation applied to the `Accept-Encoding` value —
    or to the literal `"invalid"` when the header is absent — splits on
    the literal `", "` and succeeds iff some token equals `"gzip"`         
    exactly; an absent header and `"deflate, br"` fail, `"gzip"` and
    `"deflate, gzip"` succeed. -/
theorem C3_gzip_negotiation :
    (∀ v : String, contains_gzip_encoding (splitSep ", " v) = true
      ↔ "gzip" ∈ splitSep ", " v)
    ∧ (∀ m : String → Option String, m "Accept-Encoding" = none →
      (m "Accept-Encoding").getD "invalid" = "invalid")
    ∧ contains_gzip_encoding (splitSep ", " "invalid") = false
    ∧ contains_gzip_encoding (splitSep ", " "deflate, br") = false
    ∧ contains_gzip_encoding (splitSep ", " "gzip") = true
    ∧ contains_gzip_encoding (splitSep ", " "deflate, gzip") = true := by
  refine ⟨fun v => contains_gzip_iff_mem _, ?_, by decide, by decide, by decide, by decide⟩
  intro m hm
  rw [hm]
  rfl

/-- C3 witness: the quantified conjuncts applied at a concrete header
    value and at a mapping with no `Accept-Encoding`. -/
theorem C3_witness :
    (contains_gzip_encoding (splitSep ", " "deflate, gzip") = true
      ↔ "gzip" ∈ splitSep ", " "deflate, gzip")
    ∧ (emptyMap "Accept-Encoding").getD "invalid" = "invalid" :=
  ⟨C3_gzip_negotiation.1 "deflate, gzip", C3_gzip_negotiation.2.1 emptyMap rfl⟩

/-! ## Claim C4 -/

/-- C4 counterexample: for the request `GET /echo//echo/a HTTP/1.1`
    (path starts with `/echo`, no gzip negotiated), the code strips the
    prefix `/echo/` repeatedly, so the body is `a` with length 1, not
    the single-strip remainder `/echo/a` with length 7 that the claim
    predicts. -/
theorem C4_counterexample :
    responseBytes "GET /echo//echo/a HTTP/1.1" "" emptyMap
      = some (strBytes "HTTP/1.1 200 OK\r\nContent-Type: text/plain\r\nContent-Length: 1\r\n\r\na")
    ∧ responseBytes "GET /echo//echo/a HTTP/1.1" "" emptyMap
      ≠ some (strBytes "HTTP/1.1 200 OK\r\nContent-Type: text/plain\r\nContent-Length: 7\r\n\r\n/echo/a") := by
  decide

/-- C4 (amended): for every parsed request whose `Path` starts with
    `/echo` and whose `Accept-Encoding` does not negotiate gzip, the
    echo text is the path with the literal prefix `/echo/` repeatedly
    stripped from the start (`trim_start_matches` semantics), and the
    response is exactly the status line `HTTP/1.1 200 OK`, the header
    `Content-Type: text/plain`, the header `Content-Length:` with the
    byte length of the echo text, no `Content-Encoding` header, and the
    echo text verbatim as body. -/
theorem C4_echo_plain (req dir : String) (fs : String → Option String)
    (details : String → Option String) (path : String)
    (hdet : parse_request req = some details)
    (hpath : details "Path" = some path)
    (hstart : starts_with path "/echo" = true)
    (hgz : contains_gzip_encoding
      (splitSep ", " ((details "Accept-Encoding").getD "invalid")) = false) :
    handle_connection req dir fs =
      some (strBytes ("HTTP/1.1 200 OK\r\nContent-Type: text/plain\r\n"
          ++ "Content-Length: "
          ++ toString (strBytes (trim_start_matches "/echo/" path)).length
          ++ "\r\n\r\n" ++ trim_start_matches "/echo/" path), fs) := by
  have hne : path ≠ "/" := by
    intro h
    rw [h] at hstart
    exact absurd hstart (by decide)
  simp only [handle_connection, hdet, hpath]
  rw [if_neg hne, if_pos hstart, if_neg (by simp [hgz])]

/-- C4 witness: `GET /echo/abc` without `Accept-Encoding` yields
    `Content-Length: 3` and body `abc`, with no `Content-Encoding`. -/
theorem C4_witness :
    handle_connection "GET /echo/abc HTTP/1.1" "" emptyMap
      = some (strBytes "HTTP/1.1 200 OK\r\nContent-Type: text/plain\r\nContent-Length: 3\r\n\r\nabc",
        emptyMap) :=
  (C4_echo_plain "GET /echo/abc HTTP/1.1" "" emptyMap
    (mapInsert (mapInsert (mapInsert emptyMap "Type" "GET") "Path" "/echo/abc")
      "Version" "HTTP/1.1")
    "/echo/abc" rfl rfl rfl rfl).trans rfl

/-! ## Claim C5 -/

/-- C5: for every parsed request whose `Path` starts with `/echo` and
    whose `Accept-Encoding` negotiates gzip, the response is 200 with
    `Content-Type: text/plain`, `Content-Encoding: gzip`,
    `Content-Length:` the byte length of the gzip-compressed echo text,
    the compressed bytes exactly as body — and decompressing that body
    gives back the echo text unchanged. -/
theorem C5_echo_gzip (req dir : String) (fs : String → Option String)
    (details : String → Option String) (path : String)
    (hdet : parse_request req = some details)
    (hpath : details "Path" = some path)
    (hstart : starts_with path "/echo" = true)
    (hgz : contains_gzip_encoding
      (splitSep ", " ((details "Accept-Encoding").getD "invalid")) = true) :
    handle_connection req dir fs =
      some (strBytes ("HTTP/1.1 200 OK\r\nContent-Type: text/plain\r\n"
          ++ "Content-Encoding: gzip\r\n"
          ++ "Content-Length: "
          ++ toString (gzipCompress (strBytes (trim_start_matches "/echo/" path))).length
          ++ "\r\n\r\n")
        ++ gzipCompress (strBytes (trim_start_matches "/echo/" path)), fs)
    ∧ gzipDecompress (gzipCompress (strBytes (trim_start_matches "/echo/" path)))
      = some (strBytes (trim_start_matches "/echo/" path)) := by
  constructor
  · have hne : path ≠ "/" := by
      intro h
      rw [h] at hstart
      exact absurd hstart (by decide)
    simp only [handle_connection, hdet, hpath]
    rw [if_neg hne, if_pos hstart, if_pos hgz]
  · exact gzip_roundtrip _

/-- C5 witness: `GET /echo/abc` with `Accept-Encoding: gzip`. -/
theorem C5_witness :
    handle_connection "GET /echo/abc HTTP/1.1\r\nAccept-Encoding: gzip" "" emptyMap
      = some (strBytes ("HTTP/1.1 200 OK\r\nContent-Type: text/plain\r\n"
          ++ "Content-Encoding: gzip\r\n"
          ++ "Content-Length: " ++ toString (gzipCompress (strBytes "abc")).length
          ++ "\r\n\r\n")
        ++ gzipCompress (strBytes "abc"), emptyMap)
    ∧ gzipDecompress (gzipCompress (strBytes "abc")) = some (strBytes "abc") :=
  C5_echo_gzip "GET /echo/abc HTTP/1.1\r\nAccept-Encoding: gzip" "" emptyMap
    (mapInsert (mapInsert (mapInsert (mapInsert emptyMap "Type" "GET")
      "Path" "/echo/abc") "Version" "HTTP/1.1") "Accept-Encoding" "gzip")
    "/echo/abc" rfl rfl rfl rfl

/-! ## Claim C6 -/

/-- C6: on the files route, a `GET` whose file read succeeds yields 200
    with `Content-Type: application/octet-stream`, `Content-Length:`
    the byte length of the file, and the file contents as body; a `GET`
    whose read fails — for any reason, all failure causes being the
    single `none` case — yields exactly
    `HTTP/1.1 404 Not Found\x0d\n\x0d\n` with no body; and any method
    other than `GET` or `POST` yields that same 404 response. -/
theorem C6_files_get (details fs : String → Option String) (file_path t : String)
    (ht : details "Type" = some t) :
    (t = "GET" → ∀ contents, fs file_path = some contents →
      parse_files_endpoint details fs file_path
        = some ("HTTP/1.1 200 OK\r\nContent-Type: application/octet-stream\r\nContent-Length: "
          ++ toString (strBytes contents).length ++ "\r\n\r\n" ++ contents, fs))
    ∧ (t = "GET" → fs file_path = none →
      parse_files_endpoint details fs file_path
        = some ("HTTP/1.1 404 Not Found\r\n\r\n", fs))
    ∧ (t ≠ "GET" → t ≠ "POST" →
      parse_files_endpoint details fs file_path
        = some ("HTTP/1.1 404 Not Found\r\n\r\n", fs)) := by
  refine ⟨?_, ?_, ?_⟩
  · intro hg contents hc
    simp only [parse_files_endpoint, ht, hg]
    rw [if_pos trivial, hc]
  · intro hg hc
    simp only [parse_files_endpoint, ht, hg]
    rw [if_pos trivial, hc]
  · intro hng hnp
    simp only [parse_files_endpoint, ht]
    rw [if_neg hng, if_neg hnp]

/-- C6 witness: a successful read, a failed read, and a `DELETE`. -/
theorem C6_witness :
    parse_files_endpoint (mapInsert emptyMap "Type" "GET")
        (mapInsert emptyMap "/tmp/a.txt" "hi") "/tmp/a.txt"
      = some ("HTTP/1.1 200 OK\r\nContent-Type: application/octet-stream\r\nContent-Length: "
        ++ toString (strBytes "hi").length ++ "\r\n\r\n" ++ "hi",
        mapInsert emptyMap "/tmp/a.txt" "hi")
    ∧ parse_files_endpoint (mapInsert emptyMap "Type" "GET") emptyMap "/tmp/a.txt"
      = some ("HTTP/1.1 404 Not Found\r\n\r\n", emptyMap)
    ∧ parse_files_endpoint (mapInsert emptyMap "Type" "DELETE") emptyMap "/tmp/a.txt"
      = some ("HTTP/1.1 404 Not Found\r\n\r\n", emptyMap) :=
  ⟨(C6_files_get (mapInsert emptyMap "Type" "GET")
      (mapInsert emptyMap "/tmp/a.txt" "hi") "/tmp/a.txt" "GET" rfl).1 rfl "hi" rfl,
   (C6_files_get (mapInsert emptyMap "Type" "GET") emptyMap "/tmp/a.txt" "GET" rfl).2.1
     rfl rfl,
   (C6_files_get (mapInsert emptyMap "Type" "DELETE") emptyMap "/tmp/a.txt" "DELETE" rfl).2.2
     (by decide) (by decide)⟩

/-! ## Claim C7 -/

/-- C7: a `POST` on the files route with parsed `Body` `b` writes
    exactly `b` to the resolved file (creating or truncating it) and
    returns `201 Created` with no body; a subsequent `GET` on the same
    resolved file returns 200 with body exactly `b` and
    `Content-Length:` the byte length of `b`. -/
theorem C7_post_get_roundtrip (detailsP detailsG fs : String → Option String)
    (file_path b : String)
    (hpt : detailsP "Type" = some "POST")
    (hpb : detailsP "Body" = some b)
    (hgt : detailsG "Type" = some "GET") :
    parse_files_endpoint detailsP fs file_path
      = some ("HTTP/1.1 201 Created\r\n\r\n", mapInsert fs file_path b)
    ∧ (mapInsert fs file_path b) file_path = some b
    ∧ parse_files_endpoint detailsG (mapInsert fs file_path b) file_path
      = some ("HTTP/1.1 200 OK\r\nContent-Type: application/octet-stream\r\nContent-Length: "
        ++ toString (strBytes b).length ++ "\r\n\r\n" ++ b, mapInsert fs file_path b) := by
  refine ⟨?_, ?_, ?_⟩
  · simp only [parse_files_endpoint, hpt]
    rw [hpb]
    exact rfl
  · simp [mapInsert]
  · simp only [parse_files_endpoint, hgt]
    rw [if_pos trivial,
      show (mapInsert fs file_path b) file_path = some b by simp [mapInsert]]

/-- C7 witness: `POST /files/test.txt` with body `hello`, then `GET`. -/
theorem C7_witness :
    parse_files_endpoint (mapInsert (mapInsert emptyMap "Type" "POST") "Body" "hello")
        emptyMap "/tmp/test.txt"
      = some ("HTTP/1.1 201 Created\r\n\r\n", mapInsert emptyMap "/tmp/test.txt" "hello")
    ∧ (mapInsert emptyMap "/tmp/test.txt" "hello") "/tmp/test.txt" = some "hello"
    ∧ parse_files_endpoint (mapInsert emptyMap "Type" "GET")
        (mapInsert emptyMap "/tmp/test.txt" "hello") "/tmp/test.txt"
      = some ("HTTP/1.1 200 OK\r\nContent-Type: application/octet-stream\r\nContent-Length: "
        ++ toString (strBytes "hello").length ++ "\r\n\r\n" ++ "hello",
        mapInsert emptyMap "/tmp/test.txt" "hello") :=
  C7_post_get_roundtrip (mapInsert (mapInsert emptyMap "Type" "POST") "Body" "hello")
    (mapInsert emptyMap "Type" "GET") emptyMap "/tmp/test.txt" "hello" rfl rfl rfl

/-! ## Claim C8 -/

/-- C8: for every parsed request with `Path` exactly `/user-agent`, a
    present `User-Agent` header yields 200 with
    `Content-Type: text/plain`, `Content-Length:` the byte length of
    the header value, and the value verbatim as body; an absent
    `User-Agent` yields zero response bytes written on the
    connection. -/
theorem C8_user_agent (req dir : String) (fs details : String → Option String)
    (hdet : parse_request req = some details)
    (hpath : details "Path" = some "/user-agent") :
    (∀ ua, details "User-Agent" = some ua →
      handle_connection req dir fs
        = some (strBytes ("HTTP/1.1 200 OK\r\nContent-Type: text/plain\r\nContent-Length: "
          ++ toString (strBytes ua).length ++ "\r\n\r\n" ++ ua), fs))
    ∧ (details "User-Agent" = none →
      handle_connection req dir fs = some ([], fs)) := by
  constructor
  · intro ua hua
    simp only [handle_connection, hdet, hpath]
    rw [if_neg (show ¬ starts_with "/user-agent" "/echo" = true from by decide),
      if_neg (show ¬ starts_with "/user-agent" "/files" = true from by decide),
      hua]
    exact rfl
  · intro hua
    simp only [handle_connection, hdet, hpath]
    rw [if_neg (show ¬ starts_with "/user-agent" "/echo" = true from by decide),
      if_neg (show ¬ starts_with "/user-agent" "/files" = true from by decide),
      hua]
    exact rfl

/-- C8 witness: `/user-agent` with `User-Agent: foo/1.0`, and without
    any `User-Agent` header. -/
theorem C8_witness :
    handle_connection "GET /user-agent HTTP/1.1\r\nUser-Agent: foo/1.0" "" emptyMap
      = some (strBytes "HTTP/1.1 200 OK\r\nContent-Type: text/plain\r\nContent-Length: 7\r\n\r\nfoo/1.0",
        emptyMap)
    ∧ handle_connection "GET /user-agent HTTP/1.1" "" emptyMap = some ([], emptyMap) :=
  ⟨((C8_user_agent "GET /user-agent HTTP/1.1\r\nUser-Agent: foo/1.0" "" emptyMap
      (mapInsert (mapInsert (mapInsert (mapInsert emptyMap "Type" "GET")
        "Path" "/user-agent") "Version" "HTTP/1.1") "User-Agent" "foo/1.0")
      rfl rfl).1 "foo/1.0" rfl).trans rfl,
   (C8_user_agent "GET /user-agent HTTP/1.1" "" emptyMap
      (mapInsert (mapInsert (mapInsert emptyMap "Type" "GET")
        "Path" "/user-agent") "Version" "HTTP/1.1")
      rfl rfl).2 rfl⟩
